import Mathlib

/-!
Shallow embedding of the go-pushbullet client library (`pushbullet.go`).

Pure data (structs, payload construction, header encoding) is translated
directly.  The HTTP exchange is abstracted by an oracle `net : Request →
DoResult` standing for `client.Client.Do`; JSON decoding of response
bodies is abstracted by per-shape decode-outcome fields on `Response`
(`Except String α`, `.error` = the `json.Decoder.Decode` error).  Each
operation returns the request it issued together with the Go-style
`(value, error)` pair.

Go `float32`/`float64` timestamp fields are carried opaquely as `Nat`:
no operation in the library ever reads or computes with them.
-/

set_option linter.unusedVariables false

/-- Model of `context.Context`: only the identity of the context matters
(which context value was attached to the request). `background` is
`context.Background()`. -/
inductive Context where
  | background : Context
  | custom : Nat → Context
deriving DecidableEq, Repr

/-- `type Endpoint struct { URL string }` -/
structure Endpoint where
  URL : String
deriving DecidableEq, Repr

/-- `type Client struct { Key string; Client *http.Client; Endpoint }`.
The `*http.Client` handle is not modelled; the network is the oracle. -/
structure Client where
  Key : String
  Endpoint : Endpoint
deriving DecidableEq, Repr

/-- `EndpointURL` default URL constant. -/
def EndpointURL : String := "https://api.pushbullet.com/v2"

/-- `AllDevices = ""`: the iden used for sending a push to all devices. -/
def AllDevices : String := ""

/-- `func New(apikey string) *Client` -/
def New (apikey : String) : Client :=
  { Key := apikey, Endpoint := { URL := EndpointURL } }

/-- `type Device struct {...}`; `Client *Client json:"-"` is the
back-reference (`none` = nil, and JSON decoding never populates it). -/
structure Device where
  Iden : String
  Active : Bool
  Created : Nat
  Modified : Nat
  Icon : String
  Nickname : String
  GeneratedNickname : Bool
  Manufacturer : String
  Model : String
  AppVersion : Int
  Fingerprint : String
  KeyFingerprint : String
  PushToken : String
  HasSms : Bool
  Client : Option Client
deriving DecidableEq, Repr

/-- `type ErrResponse struct { Type, Message, Cat string }` (the payload
of the `"error"` key of a non-200 body).  `Type` is a Lean keyword, so
the field is named `Ty`. -/
structure ErrResponse where
  Ty : String
  Message : String
  Cat : String
deriving DecidableEq, Repr

/-- `type deviceResponse struct { Devices []*Device; SharedDevices []*Device }` -/
structure DeviceResponse where
  Devices : List Device
  SharedDevices : List Device
deriving DecidableEq, Repr

/-- `type User struct {...}` (the opaque `Preferences interface{}` blob
is omitted: nothing in the library reads it). -/
structure User where
  Iden : String
  Email : String
  EmailNormalized : String
  Created : Nat
  Modified : Nat
  Name : String
  ImageURL : String
deriving DecidableEq, Repr

/-- `type Channel struct {...}` -/
structure Channel where
  Iden : String
  Tag : String
  Name : String
  Description : String
  ImageURL : String
  WebsiteURL : String
deriving DecidableEq, Repr

/-- `type Subscription struct {...}`.  The source holds `Channel
*Channel`; every subscription handled by the library carries a channel,
so it is embedded directly. `Client *Client json:"-"` as in `Device`. -/
structure Subscription where
  Iden : String
  Active : Bool
  Created : Nat
  Modified : Nat
  Muted : String
  Channel : Channel
  Client : Option Client
deriving DecidableEq, Repr

/-- `type subscriptionResponse struct { Subscriptions []*Subscription }` -/
structure SubscriptionResponse where
  Subscriptions : List Subscription
deriving DecidableEq, Repr

/-- `type Note struct {...}` with tags `device_iden,omitempty`,
`channel_tag,omitempty`, `type`, `title`, `body`. -/
structure Note where
  Iden : String
  Tag : String
  Ty : String
  Title : String
  Body : String
deriving DecidableEq, Repr

/-- `type Link struct {...}` with tags `device_iden,omitempty`,
`channel_tag,omitempty`, `type`, `title`, `url`, `body,omitempty`. -/
structure Link where
  Iden : String
  Tag : String
  Ty : String
  Title : String
  URL : String
  Body : String
deriving DecidableEq, Repr

/-- `type EphemeralPush struct {...}` -/
structure EphemeralPush where
  Ty : String
  PackageName : String
  SourceUserIden : String
  TargetDeviceIden : String
  ConversationIden : String
  Message : String
deriving DecidableEq, Repr

/-- `type Ephemeral struct { Type string; Push EphemeralPush }` -/
structure Ephemeral where
  Ty : String
  Push : EphemeralPush
deriving DecidableEq, Repr

/-- The closed set of values passed as `data interface{}` to
`buildRequest` / `Push` by this library. -/
inductive Payload where
  | note : Note → Payload
  | link : Link → Payload
  | ephemeral : Ephemeral → Payload
deriving DecidableEq, Repr

/-! ## JSON field-presence model (`encoding/json` with `omitempty`)

A string field tagged `omitempty` appears in the serialized object iff
it is non-empty; untagged fields always appear.  `wireFields` lists the
JSON keys present in the serialized payload, in struct order. -/

/-- JSON keys present when a `Note` is serialized by `encoding/json`. -/
def Note.wireFields (n : Note) : List String :=
  (if n.Iden = "" then [] else ["device_iden"]) ++
  (if n.Tag = "" then [] else ["channel_tag"]) ++
  ["type", "title", "body"]

/-- JSON keys present when a `Link` is serialized by `encoding/json`. -/
def Link.wireFields (l : Link) : List String :=
  (if l.Iden = "" then [] else ["device_iden"]) ++
  (if l.Tag = "" then [] else ["channel_tag"]) ++
  ["type", "title", "url"] ++
  (if l.Body = "" then [] else ["body"])

/-- JSON keys present when an `Ephemeral` is serialized (no omitempty). -/
def Ephemeral.wireFields (e : Ephemeral) : List String :=
  ["type", "push"]

/-- JSON keys of a serialized `Payload`. -/
def Payload.wireFields : Payload → List String
  | .note n => n.wireFields
  | .link l => l.wireFields
  | .ephemeral e => e.wireFields

/-! ## Transport: auth header (`buildRequest` lines 106-126)

`url.UserPassword(client.Key, "").String()` percent-escapes the
username with Go's `encodeUserPassword` rules and appends `":"` (the
empty password still prints the separator because `UserPassword` marks
the password as set); the result is then standard-base64 encoded and
prefixed with `"Basic "`.  Strings are handled at the byte level, as Go
does. -/

/-- UTF-8 encoding of one character, as byte values. -/
def utf8EncodeCharNat (c : Char) : List Nat :=
  let v := c.toNat
  if v < 0x80 then [v]
  else if v < 0x800 then
    [0xC0 + v / 0x40, 0x80 + v % 0x40]
  else if v < 0x10000 then
    [0xE0 + v / 0x1000, 0x80 + (v / 0x40) % 0x40, 0x80 + v % 0x40]
  else
    [0xF0 + v / 0x40000, 0x80 + (v / 0x1000) % 0x40,
     0x80 + (v / 0x40) % 0x40, 0x80 + v % 0x40]

/-- UTF-8 bytes of a character sequence. -/
def utf8Bytes : List Char → List Nat
  | [] => []
  | c :: cs => utf8EncodeCharNat c ++ utf8Bytes cs

/-- The bytes of a Go string (UTF-8). -/
def strBytes (s : String) : List Nat :=
  utf8Bytes s.data

/-- ASCII alphanumeric byte test (Go `shouldEscape` first clause). -/
def isByteAlphanum (c : Nat) : Bool :=
  (97 ≤ c && c ≤ 122) || (65 ≤ c && c ≤ 90) || (48 ≤ c && c ≤ 57)

/-- Go `net/url.shouldEscape(c, encodeUserPassword)`: unreserved bytes
(alphanumerics and `-_.~`) and the userinfo sub-delims `$&+,;=` stay;
`@ / ? :` and everything else is percent-escaped. -/
def shouldEscapeUserPassword (c : Nat) : Bool :=
  if isByteAlphanum c then false
  else if c = 45 || c = 95 || c = 46 || c = 126 then false
  else if c = 36 || c = 38 || c = 43 || c = 44 || c = 59 || c = 61 then false
  else true

/-- Upper-case hex digit byte (Go `"0123456789ABCDEF"`). -/
def hexUpper (n : Nat) : Nat :=
  if n < 10 then 48 + n else 55 + n

/-- Go `net/url.escape(s, encodeUserPassword)` at byte level:
`%XY` is bytes `[37, hexUpper hi, hexUpper lo]`. -/
def escapeUserPassword : List Nat → List Nat
  | [] => []
  | b :: rest =>
      (if shouldEscapeUserPassword b then [37, hexUpper (b / 16), hexUpper (b % 16)]
       else [b]) ++ escapeUserPassword rest

/-- `url.UserPassword(key, "").String()`: escaped username, `":"` (58),
empty escaped password. -/
def userPasswordString (key : List Nat) : List Nat :=
  escapeUserPassword key ++ [58]

/-- Standard base64 alphabet: sextet value to ASCII byte. -/
def b64Char (n : Nat) : Nat :=
  if n < 26 then 65 + n
  else if n < 52 then 97 + (n - 26)
  else if n < 62 then 48 + (n - 52)
  else if n = 62 then 43
  else 47

/-- Inverse of `b64Char` on the alphabet (arbitrary elsewhere). -/
def b64Val (c : Nat) : Nat :=
  if 65 ≤ c && c ≤ 90 then c - 65
  else if 97 ≤ c && c ≤ 122 then c - 97 + 26
  else if 48 ≤ c && c ≤ 57 then c - 48 + 52
  else if c = 43 then 62
  else 63

/-- `base64.StdEncoding.EncodeToString` over bytes: 3-byte groups become
4 alphabet bytes; a trailing 1- or 2-byte group is padded with `=` (61). -/
def base64Encode : List Nat → List Nat
  | [] => []
  | [a] => [b64Char (a / 4), b64Char ((a % 4) * 16), 61, 61]
  | [a, b] =>
      [b64Char (a / 4), b64Char ((a % 4) * 16 + b / 16), b64Char ((b % 16) * 4), 61]
  | a :: b :: c :: rest =>
      b64Char (a / 4) :: b64Char ((a % 4) * 16 + b / 16) ::
        b64Char ((b % 16) * 4 + c / 64) :: b64Char (c % 64) :: base64Encode rest

/-- Standard base64 decoding of well-formed input (4-byte groups, `=`
padding); ill-formed tails decode to `[]`. -/
def base64Decode : List Nat → List Nat
  | s1 :: s2 :: s3 :: s4 :: rest =>
      if s3 = 61 then [b64Val s1 * 4 + b64Val s2 / 16]
      else if s4 = 61 then
        [b64Val s1 * 4 + b64Val s2 / 16, (b64Val s2 % 16) * 16 + b64Val s3 / 4]
      else
        (b64Val s1 * 4 + b64Val s2 / 16) ::
          ((b64Val s2 % 16) * 16 + b64Val s3 / 4) ::
          ((b64Val s3 % 4) * 64 + b64Val s4) :: base64Decode rest
  | _ => []

/-- The base64 payload of the Authorization header built for a key:
`base64.StdEncoding.EncodeToString([]byte(url.UserPassword(key, "").String()))`. -/
def authHeaderB64 (key : List Nat) : List Nat :=
  base64Encode (userPasswordString key)

/-- Model of the `*http.Request` produced by `buildRequest`: the context
attached via `http.NewRequestWithContext`, method, full URL, the base64
payload of the `Authorization: Basic` header, the Content-Type header,
and the body (kept as the typed payload; serialization is modelled by
`Payload.wireFields`). -/
structure Request where
  ctx : Context
  method : String
  url : String
  authB64 : List Nat
  contentType : Option String
  body : Option Payload
deriving DecidableEq, Repr

/-- `func (client *Client) buildRequest(ctx, object, data) *http.Request`
(lines 106-126): GET on `Endpoint.URL + object` with the Basic auth
header; if `data != nil`, method becomes POST, Content-Type
`application/json`, and the JSON-encoded `data` is the body. -/
def Client.buildRequest (client : Client) (ctx : Context) (object : String)
    (data : Option Payload) : Request :=
  let r : Request :=
    { ctx := ctx
      method := "GET"
      url := client.Endpoint.URL ++ object
      authB64 := authHeaderB64 (strBytes client.Key)
      contentType := none
      body := none }
  match data with
  | none => r
  | some d => { r with method := "POST", contentType := some "application/json", body := some d }

/-! ## Response and error model

A completed `*http.Response` is abstracted by its status, its status
line, the outcome of decoding its body as each JSON shape the library
ever asks for (`Except`, with `.error msg` standing for the
`json.Decoder.Decode` error), and whether `resp.Body.Close()` fails
(`closeErr = some msg` carries that error's text). -/

instance exceptDecEq {ε α : Type} [DecidableEq ε] [DecidableEq α] :
    DecidableEq (Except ε α) := fun a b =>
  match a, b with
  | .error e, .error f =>
      if h : e = f then isTrue (by rw [h])
      else isFalse (by intro hh; cases hh; exact h rfl)
  | .ok x, .ok y =>
      if h : x = y then isTrue (by rw [h])
      else isFalse (by intro hh; cases hh; exact h rfl)
  | .error _, .ok _ => isFalse (by intro hh; cases hh)
  | .ok _, .error _ => isFalse (by intro hh; cases hh)

structure Response where
  StatusCode : Nat
  Status : String
  bodyAsError : Except String ErrResponse
  bodyAsDevices : Except String DeviceResponse
  bodyAsUser : Except String User
  bodyAsSubs : Except String SubscriptionResponse
  closeErr : Option String
deriving DecidableEq, Repr

/-- Outcome of `client.Client.Do(req)`: a transport error or a
completed response. -/
inductive DoResult where
  | fail : String → DoResult
  | ok : Response → DoResult
deriving DecidableEq, Repr

/-- The `error` values this library returns, one constructor per
construction site: `transport` = the error from `Do`; `api` =
`&errjson.ErrResponse`; `status` = `errors.New(resp.Status)`; `decode` =
a success-path `Decode` error; `closeFail` = `fmt.Errorf("Unable to
close connection to PushBullet: %w", closeErr)`; `deviceNotFound` =
`ErrDeviceNotFound`. -/
inductive PBError where
  | transport : String → PBError
  | api : ErrResponse → PBError
  | status : String → PBError
  | decode : String → PBError
  | closeFail : String → PBError
  | deviceNotFound : PBError
deriving DecidableEq, Repr

/-- `Error()` display string of each error value (`ErrResponse.Error()`
returns `e.Message`; `ErrDeviceNotFound` is `errors.New("Device not
found")`). -/
def PBError.text : PBError → String
  | .transport m => m
  | .api e => e.Message
  | .status s => s
  | .decode m => m
  | .closeFail m => "Unable to close connection to PushBullet: " ++ m
  | .deviceNotFound => "Device not found"

/-! ## Operations

Each `*WithContext` operation takes the network oracle and returns the
issued request paired with the Go `(value, error)` result
(`Option value × Option PBError`; `none` = Go `nil`). -/

/-- `DevicesWithContext` (lines 134-173).  The deferred close runs on
every path after `Do` succeeds; when `Close` fails it sets `devices =
nil` and replaces `retErr` with the wrapped close error. -/
def Client.DevicesWithContext (client : Client) (ctx : Context)
    (net : Request → DoResult) : Request × (Option (List Device) × Option PBError) :=
  let req := client.buildRequest ctx "/devices" none
  match net req with
  | .fail e => (req, (none, some (.transport e)))
  | .ok resp =>
      let core : Option (List Device) × Option PBError :=
        if resp.StatusCode ≠ 200 then
          match resp.bodyAsError with
          | .ok errjson => (none, some (.api errjson))
          | .error _ => (none, some (.status resp.Status))
        else
          match resp.bodyAsDevices with
          | .error e => (none, some (.decode e))
          | .ok devResp =>
              -- devices = devResp.Devices; for i := range devices { devices[i].Client = client }
              -- devices = append(devices, devResp.SharedDevices...)
              (some ((devResp.Devices.map fun d => { d with Client := some client })
                      ++ devResp.SharedDevices), none)
      match resp.closeErr with
      | some m => (req, (none, some (.closeFail m)))
      | none => (req, core)

/-- `Devices()` (lines 129-131). -/
def Client.Devices (client : Client) (net : Request → DoResult) :
    Request × (Option (List Device) × Option PBError) :=
  client.DevicesWithContext Context.background net

/-- The scan loop of `DeviceWithContext` (lines 187-193): first device
whose `Nickname` equals the argument, with `Client` set on the match;
`ErrDeviceNotFound` when the loop ends. -/
def findDeviceByNickname (client : Client) (nickname : String) :
    List Device → Option Device × Option PBError
  | [] => (none, some .deviceNotFound)
  | d :: rest =>
      if d.Nickname == nickname then (some { d with Client := some client }, none)
      else findDeviceByNickname client nickname rest

/-- `DeviceWithContext` (lines 181-194). -/
def Client.DeviceWithContext (client : Client) (ctx : Context) (nickname : String)
    (net : Request → DoResult) : Request × (Option Device × Option PBError) :=
  let (req, res) := client.DevicesWithContext ctx net
  match res.2 with
  | some e => (req, (none, some e))
  | none => (req, findDeviceByNickname client nickname (res.1.getD []))

/-- `Device(nickname)` (lines 176-178). -/
def Client.Device (client : Client) (nickname : String) (net : Request → DoResult) :
    Request × (Option Device × Option PBError) :=
  client.DeviceWithContext Context.background nickname net

/-- `MeWithContext` (lines 249-281).  The deferred close replaces
`retErr` when `Close` fails but leaves the value in place. -/
def Client.MeWithContext (client : Client) (ctx : Context)
    (net : Request → DoResult) : Request × (Option User × Option PBError) :=
  let req := client.buildRequest ctx "/users/me" none
  match net req with
  | .fail e => (req, (none, some (.transport e)))
  | .ok resp =>
      let core : Option User × Option PBError :=
        if resp.StatusCode ≠ 200 then
          match resp.bodyAsError with
          | .ok errjson => (none, some (.api errjson))
          | .error _ => (none, some (.status resp.Status))
        else
          match resp.bodyAsUser with
          | .error e => (none, some (.decode e))
          | .ok userResponse => (some userResponse, none)
      match resp.closeErr with
      | some m => (req, (core.1, some (.closeFail m)))
      | none => (req, core)

/-- `Me()` (lines 244-246). -/
def Client.Me (client : Client) (net : Request → DoResult) :
    Request × (Option User × Option PBError) :=
  client.MeWithContext Context.background net

/-- `PushWithContext` (lines 293-322): POST `data` to `endPoint`; on 200
the body is ignored and `nil` returned; the deferred close replaces
`retErr` when `Close` fails. -/
def Client.PushWithContext (client : Client) (ctx : Context) (endPoint : String)
    (data : Payload) (net : Request → DoResult) : Request × Option PBError :=
  let req := client.buildRequest ctx endPoint (some data)
  match net req with
  | .fail e => (req, some (.transport e))
  | .ok resp =>
      let core : Option PBError :=
        if resp.StatusCode ≠ 200 then
          match resp.bodyAsError with
          | .ok errResponse => some (.api errResponse)
          | .error _ => some (.status resp.Status)
        else none
      match resp.closeErr with
      | some m => (req, some (.closeFail m))
      | none => (req, core)

/-- `Push(endPoint, data)` (lines 286-288). -/
def Client.Push (client : Client) (endPoint : String) (data : Payload)
    (net : Request → DoResult) : Request × Option PBError :=
  client.PushWithContext Context.background endPoint data net

/-- `PushNoteWithContext` (lines 339-353): `data := Note{Iden: iden,
Type: "note", Title: title, Body: body}` then `Push("/pushes", data)`. -/
def Client.PushNoteWithContext (client : Client) (ctx : Context)
    (iden title body : String) (net : Request → DoResult) : Request × Option PBError :=
  let data : Note := { Iden := iden, Tag := "", Ty := "note", Title := title, Body := body }
  client.PushWithContext ctx "/pushes" (.note data) net

/-- `PushNote` (lines 334-336). -/
def Client.PushNote (client : Client) (iden title body : String)
    (net : Request → DoResult) : Request × Option PBError :=
  client.PushNoteWithContext Context.background iden title body net

/-- `PushNoteToChannelWithContext` (lines 361-375): `data := Note{Tag:
tag, Type: "note", ...}`. -/
def Client.PushNoteToChannelWithContext (client : Client) (ctx : Context)
    (tag title body : String) (net : Request → DoResult) : Request × Option PBError :=
  let data : Note := { Iden := "", Tag := tag, Ty := "note", Title := title, Body := body }
  client.PushWithContext ctx "/pushes" (.note data) net

/-- `PushNoteToChannel` (lines 356-358). -/
def Client.PushNoteToChannel (client : Client) (tag title body : String)
    (net : Request → DoResult) : Request × Option PBError :=
  client.PushNoteToChannelWithContext Context.background tag title body net

/-- `PushLinkWithContext` (lines 393-409). -/
def Client.PushLinkWithContext (client : Client) (ctx : Context)
    (iden title u body : String) (net : Request → DoResult) : Request × Option PBError :=
  let data : Link := { Iden := iden, Tag := "", Ty := "link", Title := title, URL := u, Body := body }
  client.PushWithContext ctx "/pushes" (.link data) net

/-- `PushLink` (lines 388-390). -/
def Client.PushLink (client : Client) (iden title u body : String)
    (net : Request → DoResult) : Request × Option PBError :=
  client.PushLinkWithContext Context.background iden title u body net

/-- `PushLinkToChannelWithContext` (lines 417-433). -/
def Client.PushLinkToChannelWithContext (client : Client) (ctx : Context)
    (tag title u body : String) (net : Request → DoResult) : Request × Option PBError :=
  let data : Link := { Iden := "", Tag := tag, Ty := "link", Title := title, URL := u, Body := body }
  client.PushWithContext ctx "/pushes" (.link data) net

/-- `PushLinkToChannel` (lines 412-414). -/
def Client.PushLinkToChannel (client : Client) (tag title u body : String)
    (net : Request → DoResult) : Request × Option PBError :=
  client.PushLinkToChannelWithContext Context.background tag title u body net

/-- `PushSMSWithContext` (lines 468-488): wraps the message in the
ephemeral `messaging_extension_reply` envelope and POSTs `/ephemerals`. -/
def Client.PushSMSWithContext (client : Client) (ctx : Context)
    (userIden deviceIden phoneNumber message : String)
    (net : Request → DoResult) : Request × Option PBError :=
  let data : Ephemeral :=
    { Ty := "push"
      Push :=
        { Ty := "messaging_extension_reply"
          PackageName := "com.pushbullet.android"
          SourceUserIden := userIden
          TargetDeviceIden := deviceIden
          ConversationIden := phoneNumber
          Message := message } }
  client.PushWithContext ctx "/ephemerals" (.ephemeral data) net

/-- `PushSMS` (lines 452-465). -/
def Client.PushSMS (client : Client) (userIden deviceIden phoneNumber message : String)
    (net : Request → DoResult) : Request × Option PBError :=
  client.PushSMSWithContext Context.background userIden deviceIden phoneNumber message net

/-- `SubscriptionsWithContext` (lines 517-553): like Devices but every
subscription gets the back-reference; the deferred close replaces
`retErr` only (the value stays). -/
def Client.SubscriptionsWithContext (client : Client) (ctx : Context)
    (net : Request → DoResult) :
    Request × (Option (List Subscription) × Option PBError) :=
  let req := client.buildRequest ctx "/subscriptions" none
  match net req with
  | .fail e => (req, (none, some (.transport e)))
  | .ok resp =>
      let core : Option (List Subscription) × Option PBError :=
        if resp.StatusCode ≠ 200 then
          match resp.bodyAsError with
          | .ok errjson => (none, some (.api errjson))
          | .error _ => (none, some (.status resp.Status))
        else
          match resp.bodyAsSubs with
          | .error e => (none, some (.decode e))
          | .ok subResp =>
              (some (subResp.Subscriptions.map fun s => { s with Client := some client }), none)
      match resp.closeErr with
      | some m => (req, (core.1, some (.closeFail m)))
      | none => (req, core)

/-- `Subscriptions()` (lines 512-514). -/
def Client.Subscriptions (client : Client) (net : Request → DoResult) :
    Request × (Option (List Subscription) × Option PBError) :=
  client.SubscriptionsWithContext Context.background net

/-- The scan loop of `SubscriptionWithContext` (lines 567-573): first
subscription whose `Channel.Tag` equals the argument; `ErrDeviceNotFound`
when the loop ends. -/
def findSubscriptionByTag (client : Client) (tag : String) :
    List Subscription → Option Subscription × Option PBError
  | [] => (none, some .deviceNotFound)
  | s :: rest =>
      if s.Channel.Tag == tag then (some { s with Client := some client }, none)
      else findSubscriptionByTag client tag rest

/-- `SubscriptionWithContext` (lines 561-574). -/
def Client.SubscriptionWithContext (client : Client) (ctx : Context) (tag : String)
    (net : Request → DoResult) : Request × (Option Subscription × Option PBError) :=
  let (req, res) := client.SubscriptionsWithContext ctx net
  match res.2 with
  | some e => (req, (none, some e))
  | none => (req, findSubscriptionByTag client tag (res.1.getD []))

/-- `Subscription(tag)` (lines 556-558). -/
def Client.SubscriptionByTag (client : Client) (tag : String)
    (net : Request → DoResult) : Request × (Option Subscription × Option PBError) :=
  client.SubscriptionWithContext Context.background tag net

/-! ## Bound-entity methods

Each dereferences the back-reference (`none` result models the nil
pointer) and forwards to the owning client's method — note: to the
background-context variant, dropping the supplied `ctx`. -/

/-- `Device.PushNoteWithContext` (lines 202-204):
`device.Client.PushNote(device.Iden, title, body)`. -/
def Device.PushNoteWithContext (device : Device) (ctx : Context)
    (title body : String) (net : Request → DoResult) : Option (Request × Option PBError) :=
  device.Client.map fun c => c.PushNote device.Iden title body net

/-- `Device.PushNote` (lines 197-199). -/
def Device.PushNote (device : Device) (title body : String)
    (net : Request → DoResult) : Option (Request × Option PBError) :=
  device.PushNoteWithContext Context.background title body net

/-- `Device.PushLinkWithContext` (lines 212-214). -/
def Device.PushLinkWithContext (device : Device) (ctx : Context)
    (title u body : String) (net : Request → DoResult) : Option (Request × Option PBError) :=
  device.Client.map fun c => c.PushLink device.Iden title u body net

/-- `Device.PushSMSWithContext` (lines 222-229):
`device.Client.PushSMS(device.Iden, deviceIden, phoneNumber, message)`. -/
def Device.PushSMSWithContext (device : Device) (ctx : Context)
    (deviceIden phoneNumber message : String) (net : Request → DoResult) :
    Option (Request × Option PBError) :=
  device.Client.map fun c => c.PushSMS device.Iden deviceIden phoneNumber message net

/-- `Device.PushSMS` (lines 217-219). -/
def Device.PushSMS (device : Device) (deviceIden phoneNumber message : String)
    (net : Request → DoResult) : Option (Request × Option PBError) :=
  device.PushSMSWithContext Context.background deviceIden phoneNumber message net

/-- `Subscription.PushNoteWithContext` (lines 582-584):
`subscription.Client.PushNoteToChannel(subscription.Channel.Tag, title, body)`. -/
def Subscription.PushNoteWithContext (subscription : Subscription) (ctx : Context)
    (title body : String) (net : Request → DoResult) : Option (Request × Option PBError) :=
  subscription.Client.map fun c => c.PushNoteToChannel subscription.Channel.Tag title body net

/-- `Subscription.PushLinkWithContext` (lines 592-599). -/
def Subscription.PushLinkWithContext (subscription : Subscription) (ctx : Context)
    (title u body : String) (net : Request → DoResult) : Option (Request × Option PBError) :=
  subscription.Client.map fun c => c.PushLinkToChannel subscription.Channel.Tag title u body net

/-! ## Helper lemmas -/

/-- A concrete failing oracle, used to instantiate universally quantified
network arguments in closed statements. -/
def netOffline : Request → DoResult := fun _ => DoResult.fail "no network"

/-- `b64Val` inverts `b64Char` on sextet values. -/
theorem b64Val_b64Char : ∀ n < 64, b64Val (b64Char n) = n := by decide

/-- No alphabet byte is the padding byte `=` (61). -/
theorem b64Char_ne_pad : ∀ n < 64, b64Char n ≠ 61 := by decide

/-- Standard base64 decoding inverts encoding on byte sequences. -/
theorem base64Decode_base64Encode (l : List Nat) (h : ∀ b ∈ l, b < 256) :
    base64Decode (base64Encode l) = l := by
  induction l using base64Encode.induct with
  | case1 => rfl
  | case2 a =>
      have ha : a < 256 := h a (by simp)
      have h1 := b64Val_b64Char (a / 4) (by omega)
      have h2 := b64Val_b64Char ((a % 4) * 16) (by omega)
      simp [base64Encode, base64Decode, h1, h2]
      omega
  | case3 a b =>
      have ha : a < 256 := h a (by simp)
      have hb : b < 256 := h b (by simp)
      have h1 := b64Val_b64Char (a / 4) (by omega)
      have h2 := b64Val_b64Char ((a % 4) * 16 + b / 16) (by omega)
      have h3 := b64Val_b64Char ((b % 16) * 4) (by omega)
      have hne := b64Char_ne_pad ((b % 16) * 4) (by omega)
      simp [base64Encode, base64Decode, hne, h1, h2, h3]
      omega
  | case4 a b c rest ih =>
      have ha : a < 256 := h a (by simp)
      have hb : b < 256 := h b (by simp)
      have hc : c < 256 := h c (by simp)
      have h1 := b64Val_b64Char (a / 4) (by omega)
      have h2 := b64Val_b64Char ((a % 4) * 16 + b / 16) (by omega)
      have h3 := b64Val_b64Char ((b % 16) * 4 + c / 64) (by omega)
      have h4 := b64Val_b64Char (c % 64) (by omega)
      have hne3 := b64Char_ne_pad ((b % 16) * 4 + c / 64) (by omega)
      have hne4 := b64Char_ne_pad (c % 64) (by omega)
      have ih' := ih (fun x hx => h x (by simp [hx]))
      simp [base64Encode, base64Decode, hne3, hne4, h1, h2, h3, h4, ih']
      refine ⟨by omega, by omega, by omega⟩

/-- Bytes that survive userinfo escaping unmodified are ASCII, hence < 256. -/
theorem lt_256_of_not_escaped {b : Nat} (h : shouldEscapeUserPassword b = false) :
    b < 256 := by
  by_contra hge
  push_neg at hge
  have h1 : isByteAlphanum b = false := by
    simp only [isByteAlphanum, Bool.or_eq_false_iff, Bool.and_eq_false_iff,
      decide_eq_false_iff_not, not_le]
    omega
  unfold shouldEscapeUserPassword at h
  split at h
  · next hcond =>
      rw [h1] at hcond
      exact Bool.noConfusion hcond
  · split at h
    · next hcond =>
        simp only [Bool.or_eq_true, decide_eq_true_eq] at hcond
        omega
    · split at h
      · next hcond =>
          simp only [Bool.or_eq_true, decide_eq_true_eq] at hcond
          omega
      · exact Bool.noConfusion h

/-- Escaping is the identity on byte sequences with no byte to escape. -/
theorem escapeUserPassword_of_safe (l : List Nat)
    (h : ∀ b ∈ l, shouldEscapeUserPassword b = false) :
    escapeUserPassword l = l := by
  induction l with
  | nil => rfl
  | cons x xs ih =>
      have hx : shouldEscapeUserPassword x = false := h x (by simp)
      simp only [escapeUserPassword, hx, Bool.false_eq_true, if_false,
        List.singleton_append, List.cons.injEq, true_and]
      exact ih fun b hb => h b (by simp [hb])

/-- A constant oracle returning one fixed completed response. -/
def netReturning (resp : Response) : Request → DoResult := fun _ => DoResult.ok resp

/-- JSON keys of a request's serialized body (empty for bodyless GETs). -/
def Request.bodyWireFields (r : Request) : List String :=
  match r.body with
  | some p => p.wireFields
  | none => []

/-- The request a `Push*` call issues is the built POST request. -/
theorem pushWithContext_fst (client : Client) (ctx : Context) (endPoint : String)
    (data : Payload) (net : Request → DoResult) :
    (client.PushWithContext ctx endPoint data net).1
      = client.buildRequest ctx endPoint (some data) := by
  simp only [Client.PushWithContext]
  cases hn : net (client.buildRequest ctx endPoint (some data)) with
  | fail e => rfl
  | ok resp =>
      cases resp with
      | mk st stat be bdev bu bs ce => cases ce <;> rfl

/-- The request `DevicesWithContext` issues is the built GET request. -/
theorem devicesWithContext_fst (client : Client) (ctx : Context)
    (net : Request → DoResult) :
    (client.DevicesWithContext ctx net).1 = client.buildRequest ctx "/devices" none := by
  simp only [Client.DevicesWithContext]
  cases hn : net (client.buildRequest ctx "/devices" none) with
  | fail e => rfl
  | ok resp =>
      cases resp with
      | mk st stat be bdev bu bs ce => cases ce <;> rfl

/-- The request `MeWithContext` issues is the built GET request. -/
theorem meWithContext_fst (client : Client) (ctx : Context)
    (net : Request → DoResult) :
    (client.MeWithContext ctx net).1 = client.buildRequest ctx "/users/me" none := by
  simp only [Client.MeWithContext]
  cases hn : net (client.buildRequest ctx "/users/me" none) with
  | fail e => rfl
  | ok resp =>
      cases resp with
      | mk st stat be bdev bu bs ce => cases ce <;> rfl

/-- The request `SubscriptionsWithContext` issues is the built GET request. -/
theorem subscriptionsWithContext_fst (client : Client) (ctx : Context)
    (net : Request → DoResult) :
    (client.SubscriptionsWithContext ctx net).1
      = client.buildRequest ctx "/subscriptions" none := by
  simp only [Client.SubscriptionsWithContext]
  cases hn : net (client.buildRequest ctx "/subscriptions" none) with
  | fail e => rfl
  | ok resp =>
      cases resp with
      | mk st stat be bdev bu bs ce => cases ce <;> rfl

/-- The context attached to a built request is the supplied one. -/
theorem buildRequest_ctx (client : Client) (ctx : Context) (object : String)
    (data : Option Payload) : (client.buildRequest ctx object data).ctx = ctx := by
  cases data <;> rfl

/-- Success result of `DevicesWithContext`: owned devices with the
back-reference set, then the shared devices as decoded. -/
theorem devicesWithContext_ok (client : Client) (ctx : Context) (resp : Response)
    (dr : DeviceResponse) (hst : resp.StatusCode = 200)
    (hdev : resp.bodyAsDevices = .ok dr) (hcl : resp.closeErr = none) :
    (client.DevicesWithContext ctx (netReturning resp)).2
      = (some ((dr.Devices.map fun d => { d with Client := some client })
                ++ dr.SharedDevices), none) := by
  simp only [Client.DevicesWithContext, netReturning]
  simp [hst, hdev, hcl]

/-- Success result of `SubscriptionsWithContext`: every subscription
with the back-reference set. -/
theorem subscriptionsWithContext_ok (client : Client) (ctx : Context) (resp : Response)
    (sr : SubscriptionResponse) (hst : resp.StatusCode = 200)
    (hsub : resp.bodyAsSubs = .ok sr) (hcl : resp.closeErr = none) :
    (client.SubscriptionsWithContext ctx (netReturning resp)).2
      = (some (sr.Subscriptions.map fun s => { s with Client := some client }), none) := by
  simp only [Client.SubscriptionsWithContext, netReturning]
  simp [hst, hsub, hcl]

/-- The device scan loop is `find?` by nickname, setting the
back-reference on the hit and yielding the sentinel on a miss. -/
theorem findDeviceByNickname_eq_find (client : Client) (nickname : String)
    (l : List Device) :
    findDeviceByNickname client nickname l
      = match l.find? (fun d => d.Nickname == nickname) with
        | some d => (some { d with Client := some client }, none)
        | none => (none, some PBError.deviceNotFound) := by
  induction l with
  | nil => rfl
  | cons d rest ih =>
      cases hd : (d.Nickname == nickname) with
      | true => simp [findDeviceByNickname, hd, List.find?_cons_of_pos]
      | false =>
          simp only [findDeviceByNickname, hd, Bool.false_eq_true, if_false, ih]
          rw [List.find?_cons_of_neg]
          simp [hd]

/-- Setting the back-reference on the owned prefix does not change what
the nickname scan returns. -/
theorem findDeviceByNickname_map_append (client : Client) (nickname : String)
    (l₁ l₂ : List Device) :
    findDeviceByNickname client nickname
        ((l₁.map fun d => { d with Client := some client }) ++ l₂)
      = findDeviceByNickname client nickname (l₁ ++ l₂) := by
  induction l₁ with
  | nil => rfl
  | cons d rest ih =>
      simp only [List.map_cons, List.cons_append, findDeviceByNickname]
      cases hd : (d.Nickname == nickname) <;> simp [hd, ih]

/-- The subscription scan yields the sentinel when no tag matches. -/
theorem findSubscriptionByTag_of_no_match (client : Client) (tag : String)
    (l : List Subscription) (h : ∀ s ∈ l, s.Channel.Tag ≠ tag) :
    findSubscriptionByTag client tag l = (none, some PBError.deviceNotFound) := by
  induction l with
  | nil => rfl
  | cons s rest ih =>
      have hs : (s.Channel.Tag == tag) = false := by
        simp only [beq_eq_false_iff_ne, ne_eq]
        exact h s (by simp)
      simp only [findSubscriptionByTag, hs, Bool.false_eq_true, if_false]
      exact ih fun x hx => h x (by simp [hx])

/-! ## Concrete fixtures for witnesses and counterexamples -/

/-- A device fixture with the given identifier and nickname. -/
def mkDevice (iden nickname : String) : Device :=
  { Iden := iden, Active := true, Created := 0, Modified := 0, Icon := "",
    Nickname := nickname, GeneratedNickname := false, Manufacturer := "",
    Model := "", AppVersion := 0, Fingerprint := "", KeyFingerprint := "",
    PushToken := "", HasSms := false, Client := none }

/-- A subscription fixture for the given channel tag. -/
def mkSubscription (iden tag : String) : Subscription :=
  { Iden := iden, Active := true, Created := 0, Modified := 0, Muted := "",
    Channel := { Iden := iden ++ "-ch", Tag := tag, Name := "", Description := "",
                 ImageURL := "", WebsiteURL := "" },
    Client := none }

/-- A 200 response whose body decodes as the given device response. -/
def respWithDevices (dr : DeviceResponse) : Response :=
  { StatusCode := 200, Status := "200 OK", bodyAsError := .error "not an error body",
    bodyAsDevices := .ok dr, bodyAsUser := .error "wrong shape",
    bodyAsSubs := .error "wrong shape", closeErr := none }

/-- A 200 response whose body decodes as the given subscription response. -/
def respWithSubs (sr : SubscriptionResponse) : Response :=
  { StatusCode := 200, Status := "200 OK", bodyAsError := .error "not an error body",
    bodyAsDevices := .error "wrong shape", bodyAsUser := .error "wrong shape",
    bodyAsSubs := .ok sr, closeErr := none }

/-- The structured API error used by the repository's own tests. -/
def mockErr : ErrResponse :=
  { Ty := "invalid_request", Message := "The resource could not be found.", Cat := "X" }

/-- A 500 response with a parseable structured error body, clean close. -/
def resp500Structured : Response :=
  { StatusCode := 500, Status := "500 Internal Server Error",
    bodyAsError := .ok mockErr, bodyAsDevices := .error "EOF",
    bodyAsUser := .error "EOF", bodyAsSubs := .error "EOF", closeErr := none }

/-- A user fixture. -/
def mkUser : User :=
  { Iden := "u0", Email := "e@x", EmailNormalized := "e@x", Created := 0,
    Modified := 0, Name := "", ImageURL := "" }

/-- A 200 response with decodable device, user and subscription bodies
whose close fails. -/
def resp200CloseFail : Response :=
  { StatusCode := 200, Status := "200 OK",
    bodyAsError := .error "not an error body",
    bodyAsDevices := .ok { Devices := [mkDevice "o1" "laptop"], SharedDevices := [] },
    bodyAsUser := .ok mkUser,
    bodyAsSubs := .ok { Subscriptions := [mkSubscription "u1" "tagx"] },
    closeErr := some "broken pipe" }

/-- A 500 response with a structured error body whose close also fails. -/
def resp500Close : Response :=
  { StatusCode := 500, Status := "500 Internal Server Error",
    bodyAsError := .ok mockErr, bodyAsDevices := .error "EOF",
    bodyAsUser := .error "EOF", bodyAsSubs := .error "EOF",
    closeErr := some "broken pipe" }

/-! ## Claims -/

/-- **C1 (amended).** A successful `/devices` fetch whose body decodes to
`N` owned and `M` shared devices (with a clean body close) returns
exactly the owned devices followed by the shared devices — `N + M`
entries, owned first.  Every owned entry has its `Client` back-reference
set to the requesting client; the shared entries are returned exactly as
decoded, their `Client` field not being set by this call. -/
theorem devices_concat_owned_backrefs (client : Client) (ctx : Context)
    (resp : Response) (dr : DeviceResponse) (hst : resp.StatusCode = 200)
    (hdev : resp.bodyAsDevices = .ok dr) (hcl : resp.closeErr = none) :
    (client.DevicesWithContext ctx (netReturning resp)).2
      = (some ((dr.Devices.map fun d => { d with Client := some client })
                ++ dr.SharedDevices), none)
    ∧ ((dr.Devices.map fun d : Device => { d with Client := some client })
        ++ dr.SharedDevices).length = dr.Devices.length + dr.SharedDevices.length
    ∧ ∀ d ∈ dr.Devices.map fun d => { d with Client := some client },
        d.Client = some client := by
  refine ⟨devicesWithContext_ok client ctx resp dr hst hdev hcl, by simp, ?_⟩
  intro d hd
  simp only [List.mem_map] at hd
  obtain ⟨d', _, rfl⟩ := hd
  rfl

/-- Witness for C1: one owned and one shared device. -/
theorem devices_concat_owned_backrefs_witness :
    ((New "k").DevicesWithContext Context.background
        (netReturning (respWithDevices
          { Devices := [mkDevice "o1" "laptop"],
            SharedDevices := [mkDevice "s1" "shared"] }))).2
      = (some (([mkDevice "o1" "laptop"].map fun d => { d with Client := some (New "k") })
                ++ [mkDevice "s1" "shared"]), none)
    ∧ (([mkDevice "o1" "laptop"].map fun d : Device => { d with Client := some (New "k") })
        ++ [mkDevice "s1" "shared"]).length
        = [mkDevice "o1" "laptop"].length + [mkDevice "s1" "shared"].length
    ∧ ∀ d ∈ [mkDevice "o1" "laptop"].map fun d => { d with Client := some (New "k") },
        d.Client = some (New "k") :=
  devices_concat_owned_backrefs (New "k") Context.background
    (respWithDevices
      { Devices := [mkDevice "o1" "laptop"], SharedDevices := [mkDevice "s1" "shared"] })
    { Devices := [mkDevice "o1" "laptop"], SharedDevices := [mkDevice "s1" "shared"] }
    rfl rfl rfl

/-- **C1 counterexample.** With zero owned and one shared device the
single returned entry keeps its decoded `Client` field (`none`): not
every returned entry has its back-reference set to the caller. -/
theorem devices_shared_backref_counterexample :
    ((New "k").DevicesWithContext Context.background
        (netReturning (respWithDevices
          { Devices := [], SharedDevices := [mkDevice "s1" "shared"] }))).2.1
      = some [mkDevice "s1" "shared"]
    ∧ (mkDevice "s1" "shared").Client = none
    ∧ (none : Option Client) ≠ some (New "k") := by
  refine ⟨rfl, rfl, by simp⟩

/-- **C2.** For every completed response with a clean body close: on a
non-200 status each of Devices/Me/Push/Subscriptions returns the
structured API error when the body decodes as the error shape (display
string = its message field) and otherwise a generic error equal to the
literal status line; on status 200 a body that fails to decode makes the
decoding calls return that decode error. -/
theorem error_dispatch (client : Client) (ctx : Context) (endPoint : String)
    (data : Payload) (resp : Response) (hcl : resp.closeErr = none) :
    (resp.StatusCode ≠ 200 →
      (∀ e, resp.bodyAsError = .ok e →
        (client.DevicesWithContext ctx (netReturning resp)).2.2 = some (.api e)
        ∧ (client.MeWithContext ctx (netReturning resp)).2.2 = some (.api e)
        ∧ (client.PushWithContext ctx endPoint data (netReturning resp)).2 = some (.api e)
        ∧ (client.SubscriptionsWithContext ctx (netReturning resp)).2.2 = some (.api e)
        ∧ (PBError.api e).text = e.Message)
      ∧ (∀ m, resp.bodyAsError = .error m →
        (client.DevicesWithContext ctx (netReturning resp)).2.2
            = some (.status resp.Status)
        ∧ (client.MeWithContext ctx (netReturning resp)).2.2
            = some (.status resp.Status)
        ∧ (client.PushWithContext ctx endPoint data (netReturning resp)).2
            = some (.status resp.Status)
        ∧ (client.SubscriptionsWithContext ctx (netReturning resp)).2.2
            = some (.status resp.Status)
        ∧ (PBError.status resp.Status).text = resp.Status))
    ∧ (resp.StatusCode = 200 →
      (∀ m, resp.bodyAsDevices = .error m →
        (client.DevicesWithContext ctx (netReturning resp)).2.2 = some (.decode m))
      ∧ (∀ m, resp.bodyAsUser = .error m →
        (client.MeWithContext ctx (netReturning resp)).2.2 = some (.decode m))
      ∧ (∀ m, resp.bodyAsSubs = .error m →
        (client.SubscriptionsWithContext ctx (netReturning resp)).2.2
            = some (.decode m))) := by
  constructor
  · intro hne
    constructor
    · intro e he
      refine ⟨?_, ?_, ?_, ?_, rfl⟩
      · simp only [Client.DevicesWithContext, netReturning]
        simp [hne, he, hcl]
      · simp only [Client.MeWithContext, netReturning]
        simp [hne, he, hcl]
      · simp only [Client.PushWithContext, netReturning]
        simp [hne, he, hcl]
      · simp only [Client.SubscriptionsWithContext, netReturning]
        simp [hne, he, hcl]
    · intro m hm
      refine ⟨?_, ?_, ?_, ?_, rfl⟩
      · simp only [Client.DevicesWithContext, netReturning]
        simp [hne, hm, hcl]
      · simp only [Client.MeWithContext, netReturning]
        simp [hne, hm, hcl]
      · simp only [Client.PushWithContext, netReturning]
        simp [hne, hm, hcl]
      · simp only [Client.SubscriptionsWithContext, netReturning]
        simp [hne, hm, hcl]
  · intro h200
    refine ⟨?_, ?_, ?_⟩ <;> intro m hm
    · simp only [Client.DevicesWithContext, netReturning]
      simp [h200, hm, hcl]
    · simp only [Client.MeWithContext, netReturning]
      simp [h200, hm, hcl]
    · simp only [Client.SubscriptionsWithContext, netReturning]
      simp [h200, hm, hcl]

/-- Witness for C2: a 500 response with the structured error body used by
the repository's tests. -/
theorem error_dispatch_witness :
    ((New "k").DevicesWithContext Context.background
        (netReturning resp500Structured)).2.2 = some (.api mockErr)
    ∧ ((New "k").MeWithContext Context.background
        (netReturning resp500Structured)).2.2 = some (.api mockErr)
    ∧ ((New "k").PushWithContext Context.background "/pushes"
        (.note { Iden := "d", Tag := "", Ty := "note", Title := "t", Body := "b" })
        (netReturning resp500Structured)).2 = some (.api mockErr)
    ∧ ((New "k").SubscriptionsWithContext Context.background
        (netReturning resp500Structured)).2.2 = some (.api mockErr)
    ∧ (PBError.api mockErr).text = mockErr.Message :=
  ((error_dispatch (New "k") Context.background "/pushes"
      (.note { Iden := "d", Tag := "", Ty := "note", Title := "t", Body := "b" })
      resp500Structured rfl).1 (by decide)).1 mockErr rfl

/-- **C3 (amended).** For every client whose API key consists only of
bytes the userinfo encoding leaves unescaped (ASCII alphanumerics,
`-_.~` and `$&+,;=`), the Authorization payload of every built request
base64-decodes to exactly the key's bytes followed by `":"`.  (Keys
containing bytes such as `@`, `/`, `?`, `:` or non-ASCII are
percent-escaped first, so the decoded payload is the escaped key.) -/
theorem auth_header_decodes_to_key (client : Client) (ctx : Context)
    (object : String) (data : Option Payload)
    (hsafe : ∀ b ∈ strBytes client.Key, shouldEscapeUserPassword b = false) :
    base64Decode (client.buildRequest ctx object data).authB64
      = strBytes client.Key ++ [58] := by
  have hesc := escapeUserPassword_of_safe (strBytes client.Key) hsafe
  have hlt : ∀ b ∈ userPasswordString (strBytes client.Key), b < 256 := by
    intro b hb
    unfold userPasswordString at hb
    rw [hesc] at hb
    rcases List.mem_append.mp hb with hmem | hmem
    · exact lt_256_of_not_escaped (hsafe b hmem)
    · simp only [List.mem_singleton] at hmem
      omega
  have hauth : (client.buildRequest ctx object data).authB64
      = authHeaderB64 (strBytes client.Key) := by
    cases data <;> rfl
  rw [hauth]
  unfold authHeaderB64
  rw [base64Decode_base64Encode _ hlt]
  unfold userPasswordString
  rw [hesc]

/-- Witness for C3: an alphanumeric key round-trips. -/
theorem auth_header_decodes_to_key_witness :
    base64Decode ((New "apikey123").buildRequest Context.background
        "/devices" none).authB64
      = strBytes "apikey123" ++ [58] :=
  auth_header_decodes_to_key (New "apikey123") Context.background "/devices" none
    (by decide)

/-- **C3 counterexample.** For the key `"@"` the userinfo encoding
produces `%40`, so the header payload decodes to `"%40:"`, not `"@:"`. -/
theorem auth_header_counterexample :
    base64Decode ((New "@").buildRequest Context.background "/devices" none).authB64
      = strBytes "%40:"
    ∧ base64Decode ((New "@").buildRequest Context.background "/devices" none).authB64
      ≠ strBytes "@" ++ [58] := by
  refine ⟨by decide, by decide⟩

/-- **C4 (amended).** Every payload built by PushNote, PushLink,
PushNoteToChannel and PushLinkToChannel serializes with AT MOST one of
`device_iden` / `channel_tag` — never both — and with exactly one
precisely when the supplied device iden (resp. channel tag) is
non-empty.  (With the empty iden — the documented `AllDevices` value —
or an empty tag, `omitempty` drops the field and NEITHER is present.) -/
theorem push_payload_single_address (client : Client) (ctx : Context)
    (iden tag title body u : String) (net : Request → DoResult) :
    ("channel_tag" ∉
        (client.PushNoteWithContext ctx iden title body net).1.bodyWireFields
      ∧ ("device_iden" ∈
          (client.PushNoteWithContext ctx iden title body net).1.bodyWireFields
          ↔ iden ≠ ""))
    ∧ ("device_iden" ∉
        (client.PushNoteToChannelWithContext ctx tag title body net).1.bodyWireFields
      ∧ ("channel_tag" ∈
          (client.PushNoteToChannelWithContext ctx tag title body net).1.bodyWireFields
          ↔ tag ≠ ""))
    ∧ ("channel_tag" ∉
        (client.PushLinkWithContext ctx iden title u body net).1.bodyWireFields
      ∧ ("device_iden" ∈
          (client.PushLinkWithContext ctx iden title u body net).1.bodyWireFields
          ↔ iden ≠ ""))
    ∧ ("device_iden" ∉
        (client.PushLinkToChannelWithContext ctx tag title u body net).1.bodyWireFields
      ∧ ("channel_tag" ∈
          (client.PushLinkToChannelWithContext ctx tag title u body net).1.bodyWireFields
          ↔ tag ≠ "")) := by
  have hn := pushWithContext_fst client ctx "/pushes"
    (.note { Iden := iden, Tag := "", Ty := "note", Title := title, Body := body }) net
  have hnc := pushWithContext_fst client ctx "/pushes"
    (.note { Iden := "", Tag := tag, Ty := "note", Title := title, Body := body }) net
  have hl := pushWithContext_fst client ctx "/pushes"
    (.link { Iden := iden, Tag := "", Ty := "link", Title := title, URL := u, Body := body }) net
  have hlc := pushWithContext_fst client ctx "/pushes"
    (.link { Iden := "", Tag := tag, Ty := "link", Title := title, URL := u, Body := body }) net
  refine ⟨?_, ?_, ?_, ?_⟩
  · simp only [Client.PushNoteWithContext, hn, Client.buildRequest,
      Request.bodyWireFields, Payload.wireFields, Note.wireFields]
    by_cases hi : iden = "" <;> simp [hi]
  · simp only [Client.PushNoteToChannelWithContext, hnc, Client.buildRequest,
      Request.bodyWireFields, Payload.wireFields, Note.wireFields]
    by_cases ht : tag = "" <;> simp [ht]
  · simp only [Client.PushLinkWithContext, hl, Client.buildRequest,
      Request.bodyWireFields, Payload.wireFields, Link.wireFields]
    by_cases hi : iden = "" <;> by_cases hb : body = "" <;> simp [hi, hb]
  · simp only [Client.PushLinkToChannelWithContext, hlc, Client.buildRequest,
      Request.bodyWireFields, Payload.wireFields, Link.wireFields]
    by_cases ht : tag = "" <;> by_cases hb : body = "" <;> simp [ht, hb]

/-- **C4 counterexample.** `PushNote` with the documented `AllDevices`
iden (the empty string) serializes with NEITHER `device_iden` nor
`channel_tag` — "never neither" fails. -/
theorem push_payload_neither_counterexample :
    "device_iden" ∉
      ((New "k").PushNote AllDevices "T" "B" netOffline).1.bodyWireFields
    ∧ "channel_tag" ∉
      ((New "k").PushNote AllDevices "T" "B" netOffline).1.bodyWireFields := by
  refine ⟨by decide, by decide⟩

/-- **C5 (amended).** On every call whose response-body close fails, the
deferred handler unconditionally REPLACES the call's error with the
wrapped close error — the close error wins, not the primary error; the
primary (structured / status-line / decode) error is surfaced only when
the close succeeds.  Devices additionally clears the returned list,
while Me and Subscriptions keep whatever value the pre-close path had
already produced, alongside the replaced error.  The wrapper text
prefixes the close error's message. -/
theorem close_error_wins (client : Client) (ctx : Context) (endPoint : String)
    (data : Payload) (resp : Response) (m : String)
    (hcl : resp.closeErr = some m) :
    (client.DevicesWithContext ctx (netReturning resp)).2
      = (none, some (.closeFail m))
    ∧ (client.PushWithContext ctx endPoint data (netReturning resp)).2
      = some (.closeFail m)
    ∧ (client.MeWithContext ctx (netReturning resp)).2.2 = some (.closeFail m)
    ∧ (client.MeWithContext ctx (netReturning resp)).2.1
      = (if resp.StatusCode ≠ 200 then none
         else match resp.bodyAsUser with
              | .error _ => none
              | .ok u => some u)
    ∧ (client.SubscriptionsWithContext ctx (netReturning resp)).2.2
      = some (.closeFail m)
    ∧ (client.SubscriptionsWithContext ctx (netReturning resp)).2.1
      = (if resp.StatusCode ≠ 200 then none
         else match resp.bodyAsSubs with
              | .error _ => none
              | .ok sr => some (sr.Subscriptions.map fun s : Subscription =>
                  { s with Client := some client }))
    ∧ (PBError.closeFail m).text
      = "Unable to close connection to PushBullet: " ++ m := by
  obtain ⟨st, stat, be, bdev, bu, bs, ce⟩ := resp
  simp only at hcl
  subst hcl
  refine ⟨rfl, rfl, rfl, ?_, rfl, ?_, rfl⟩
  · simp only [Client.MeWithContext, netReturning]
    by_cases h200 : st ≠ 200
    · simp only [h200, if_true, if_pos h200]
      cases be <;> rfl
    · simp only [h200, if_false, if_neg h200]
      cases bu <;> rfl
  · simp only [Client.SubscriptionsWithContext, netReturning]
    by_cases h200 : st ≠ 200
    · simp only [h200, if_true, if_pos h200]
      cases be <;> rfl
    · simp only [h200, if_false, if_neg h200]
      cases bs <;> rfl

/-- Witness for C5: a 200 response with decodable bodies whose close
fails — every call returns the wrapped close error; Devices clears its
already-decoded list, while Me and Subscriptions keep their values
alongside the replaced error. -/
theorem close_error_wins_witness :
    ((New "k").DevicesWithContext Context.background
        (netReturning resp200CloseFail)).2 = (none, some (.closeFail "broken pipe"))
    ∧ ((New "k").PushWithContext Context.background "/pushes"
        (.note { Iden := "d", Tag := "", Ty := "note", Title := "t", Body := "b" })
        (netReturning resp200CloseFail)).2 = some (.closeFail "broken pipe")
    ∧ ((New "k").MeWithContext Context.background
        (netReturning resp200CloseFail)).2.2 = some (.closeFail "broken pipe")
    ∧ ((New "k").MeWithContext Context.background
        (netReturning resp200CloseFail)).2.1 = some mkUser
    ∧ ((New "k").SubscriptionsWithContext Context.background
        (netReturning resp200CloseFail)).2.2 = some (.closeFail "broken pipe")
    ∧ ((New "k").SubscriptionsWithContext Context.background
        (netReturning resp200CloseFail)).2.1
      = some [{ mkSubscription "u1" "tagx" with Client := some (New "k") }]
    ∧ (PBError.closeFail "broken pipe").text
      = "Unable to close connection to PushBullet: " ++ "broken pipe" :=
  close_error_wins (New "k") Context.background "/pushes"
    (.note { Iden := "d", Tag := "", Ty := "note", Title := "t", Body := "b" })
    resp200CloseFail "broken pipe" rfl

/-- **C5 counterexample.** A run holding a primary error (structured 500
body) whose close also fails returns the close error, NOT the primary
error — "primary error wins" is false. -/
theorem close_error_counterexample :
    ((New "k").PushWithContext Context.background "/pushes"
        (.note { Iden := "d", Tag := "", Ty := "note", Title := "t", Body := "b" })
        (netReturning resp500Close)).2 = some (.closeFail "broken pipe")
    ∧ PBError.closeFail "broken pipe" ≠ PBError.api mockErr := by
  refine ⟨by decide, by decide⟩

/-- **C6.** After a successful fetch, `Device(nickname)` returns the
first device of the owned-then-shared sequence whose nickname equals the
argument, with its back-reference set to the calling client; with no
match it returns no device and the distinguished `ErrDeviceNotFound`
sentinel (not a status-line error), whose text is "Device not found". -/
theorem device_lookup_first_match (client : Client) (ctx : Context)
    (nickname : String) (resp : Response) (dr : DeviceResponse)
    (hst : resp.StatusCode = 200) (hdev : resp.bodyAsDevices = .ok dr)
    (hcl : resp.closeErr = none) :
    (client.DeviceWithContext ctx nickname (netReturning resp)).2
      = (match (dr.Devices ++ dr.SharedDevices).find?
            (fun d => d.Nickname == nickname) with
         | some d => (some { d with Client := some client }, none)
         | none => (none, some PBError.deviceNotFound))
    ∧ PBError.deviceNotFound.text = "Device not found"
    ∧ ∀ s, PBError.deviceNotFound ≠ PBError.status s := by
  refine ⟨?_, rfl, fun s h => PBError.noConfusion h⟩
  have hres := devicesWithContext_ok client ctx resp dr hst hdev hcl
  simp only [Client.DeviceWithContext]
  cases hp : client.DevicesWithContext ctx (netReturning resp) with
  | mk req res =>
      rw [hp] at hres
      have hres' : res = (some ((dr.Devices.map fun d : Device =>
          { d with Client := some client }) ++ dr.SharedDevices), none) := hres
      subst hres'
      simp only [Option.getD_some]
      rw [findDeviceByNickname_map_append, findDeviceByNickname_eq_find]

/-- Witness for C6: looking up a shared device's nickname finds it and
sets the back-reference. -/
theorem device_lookup_first_match_witness :
    ((New "k").DeviceWithContext Context.background "beta"
        (netReturning (respWithDevices
          { Devices := [mkDevice "o1" "alpha"],
            SharedDevices := [mkDevice "s1" "beta"] }))).2
      = (match ([mkDevice "o1" "alpha"] ++ [mkDevice "s1" "beta"]).find?
            (fun d => d.Nickname == "beta") with
         | some d => (some { d with Client := some (New "k") }, none)
         | none => (none, some PBError.deviceNotFound))
    ∧ PBError.deviceNotFound.text = "Device not found"
    ∧ ∀ s, PBError.deviceNotFound ≠ PBError.status s :=
  device_lookup_first_match (New "k") Context.background "beta"
    (respWithDevices
      { Devices := [mkDevice "o1" "alpha"], SharedDevices := [mkDevice "s1" "beta"] })
    { Devices := [mkDevice "o1" "alpha"], SharedDevices := [mkDevice "s1" "beta"] }
    rfl rfl rfl

/-- **C7.** A Device-bound `PushNote(title, body)` is exactly the owning
client's `PushNote(device.Iden, title, body)` call: identical issued
request, whose payload is the same `Note` value POSTed to `/pushes`. -/
theorem device_bound_pushnote_same_payload (c : Client) (dev : Device)
    (ctx : Context) (title body : String) (net : Request → DoResult) :
    ({ dev with Client := some c } : Device).PushNoteWithContext ctx title body net
      = some (c.PushNote dev.Iden title body net)
    ∧ (c.PushNote dev.Iden title body net).1.body
      = some (.note { Iden := dev.Iden, Tag := "", Ty := "note",
                      Title := title, Body := body })
    ∧ (c.PushNote dev.Iden title body net).1.url = c.Endpoint.URL ++ "/pushes" := by
  refine ⟨rfl, ?_, ?_⟩ <;>
    simp only [Client.PushNote, Client.PushNoteWithContext, pushWithContext_fst,
      Client.buildRequest]

/-- **C8.** The context-accepting variants on bound Device and
Subscription entities DROP the supplied context: the request they issue
always carries `context.Background()`, whatever `ctx` is passed — while
the client-level `*WithContext` operations do thread the supplied
context into the issued request. -/
theorem bound_withcontext_drops_ctx (c : Client) (dev : Device)
    (sub : Subscription) (ctx : Context)
    (iden title body u deviceIden phoneNumber message endPoint : String)
    (data : Payload) (net : Request → DoResult) :
    (({ dev with Client := some c } : Device).PushNoteWithContext ctx title body net).map
        (fun p => p.1.ctx) = some Context.background
    ∧ (({ dev with Client := some c } : Device).PushLinkWithContext ctx title u body net).map
        (fun p => p.1.ctx) = some Context.background
    ∧ (({ dev with Client := some c } : Device).PushSMSWithContext ctx deviceIden
          phoneNumber message net).map (fun p => p.1.ctx) = some Context.background
    ∧ (({ sub with Client := some c } : Subscription).PushNoteWithContext ctx title body net).map
        (fun p => p.1.ctx) = some Context.background
    ∧ (({ sub with Client := some c } : Subscription).PushLinkWithContext ctx title u body net).map
        (fun p => p.1.ctx) = some Context.background
    ∧ (c.DevicesWithContext ctx net).1.ctx = ctx
    ∧ (c.MeWithContext ctx net).1.ctx = ctx
    ∧ (c.SubscriptionsWithContext ctx net).1.ctx = ctx
    ∧ (c.PushWithContext ctx endPoint data net).1.ctx = ctx
    ∧ (c.PushNoteWithContext ctx iden title body net).1.ctx = ctx := by
  refine ⟨?_, ?_, ?_, ?_, ?_, ?_, ?_, ?_, ?_, ?_⟩
  · simp [Device.PushNoteWithContext, Client.PushNote, Client.PushNoteWithContext,
      pushWithContext_fst, buildRequest_ctx]
  · simp [Device.PushLinkWithContext, Client.PushLink, Client.PushLinkWithContext,
      pushWithContext_fst, buildRequest_ctx]
  · simp [Device.PushSMSWithContext, Client.PushSMS, Client.PushSMSWithContext,
      pushWithContext_fst, buildRequest_ctx]
  · simp [Subscription.PushNoteWithContext, Client.PushNoteToChannel,
      Client.PushNoteToChannelWithContext, pushWithContext_fst, buildRequest_ctx]
  · simp [Subscription.PushLinkWithContext, Client.PushLinkToChannel,
      Client.PushLinkToChannelWithContext, pushWithContext_fst, buildRequest_ctx]
  · rw [devicesWithContext_fst, buildRequest_ctx]
  · rw [meWithContext_fst, buildRequest_ctx]
  · rw [subscriptionsWithContext_fst, buildRequest_ctx]
  · rw [pushWithContext_fst, buildRequest_ctx]
  · simp only [Client.PushNoteWithContext, pushWithContext_fst, buildRequest_ctx]

/-- **C9.** A Device-bound `PushSMS(deviceIden, phoneNumber, message)`
forwards the bound device's own `Iden` as the source-user iden: the
ephemeral payload carries `source_user_iden = device.Iden` and
`target_device_iden =` the caller's first argument, POSTed to
`/ephemerals`. -/
theorem device_bound_sms_source_iden (c : Client) (dev : Device) (ctx : Context)
    (deviceIden phoneNumber message : String) (net : Request → DoResult) :
    (({ dev with Client := some c } : Device).PushSMSWithContext ctx deviceIden
        phoneNumber message net).map (fun p => p.1.body)
      = some (some (.ephemeral
          { Ty := "push"
            Push := { Ty := "messaging_extension_reply"
                      PackageName := "com.pushbullet.android"
                      SourceUserIden := dev.Iden
                      TargetDeviceIden := deviceIden
                      ConversationIden := phoneNumber
                      Message := message } }))
    ∧ (({ dev with Client := some c } : Device).PushSMSWithContext ctx deviceIden
        phoneNumber message net).map (fun p => p.1.url)
      = some (c.Endpoint.URL ++ "/ephemerals") := by
  constructor <;>
    simp [Device.PushSMSWithContext, Client.PushSMS, Client.PushSMSWithContext,
      pushWithContext_fst, Client.buildRequest]

/-- **C10.** When no subscription's channel tag matches, the lookup
returns no value and the very same sentinel error value the device
lookup misses with — `ErrDeviceNotFound`, whose text names a device
("Device not found"); no separate subscription-not-found sentinel
exists. -/
theorem subscription_miss_same_sentinel (client : Client) (ctx : Context)
    (tag : String) (resp : Response) (sr : SubscriptionResponse)
    (hst : resp.StatusCode = 200) (hsub : resp.bodyAsSubs = .ok sr)
    (hcl : resp.closeErr = none)
    (hnone : ∀ s ∈ sr.Subscriptions, s.Channel.Tag ≠ tag) :
    (client.SubscriptionWithContext ctx tag (netReturning resp)).2
      = (none, some PBError.deviceNotFound)
    ∧ (∀ nickname, findDeviceByNickname client nickname []
        = (none, some PBError.deviceNotFound))
    ∧ PBError.deviceNotFound.text = "Device not found" := by
  refine ⟨?_, fun _ => rfl, rfl⟩
  have hres := subscriptionsWithContext_ok client ctx resp sr hst hsub hcl
  simp only [Client.SubscriptionWithContext]
  cases hp : client.SubscriptionsWithContext ctx (netReturning resp) with
  | mk req res =>
      rw [hp] at hres
      have hres' : res = (some (sr.Subscriptions.map fun s : Subscription =>
          { s with Client := some client }), none) := hres
      subst hres'
      simp only [Option.getD_some]
      apply findSubscriptionByTag_of_no_match
      intro s hs
      simp only [List.mem_map] at hs
      obtain ⟨s', hs', rfl⟩ := hs
      exact hnone s' hs'

/-- Witness for C10: one subscription tagged "elonmusknews", looked up
with a missing tag. -/
theorem subscription_miss_same_sentinel_witness :
    ((New "k").SubscriptionWithContext Context.background "missing"
        (netReturning (respWithSubs
          { Subscriptions := [mkSubscription "u1" "elonmusknews"] }))).2
      = (none, some PBError.deviceNotFound)
    ∧ (∀ nickname, findDeviceByNickname (New "k") nickname []
        = (none, some PBError.deviceNotFound))
    ∧ PBError.deviceNotFound.text = "Device not found" :=
  subscription_miss_same_sentinel (New "k") Context.background "missing"
    (respWithSubs { Subscriptions := [mkSubscription "u1" "elonmusknews"] })
    { Subscriptions := [mkSubscription "u1" "elonmusknews"] }
    rfl rfl rfl (by decide)
